import Mathlib

/-!
Verification of the field-descriptor layer of the tavi library
(`tavi/fields.py`), a declarative schema/validation layer for
document-oriented data models.

The embedding models Python runtime values with the inductive type `PyVal`.
Python floating-point values are modelled as rationals; every float the
claims exercise is a small integer, where float arithmetic is exact.
Validation is modelled as a pure function from a field configuration and a
stored value to the list of message fragments appended, in order, to the
errors collection for that field (the errors collection keys messages by
field name; label rendering is out of scope of the claims).

The repository code under `src/` is `tavi/fields.py` and a unit test file.
The base class `BaseField` (`tavi/base/fields.py`), the class
`EmbeddedDocument` (`tavi/documents.py`) and the external `bson.ObjectId`
parser are not under `src/`; those are modelled from the specification and
marked as such in their doc comments.
-/

/-- A Python runtime value, restricted to the shapes the field layer
manipulates: `None`, booleans, integers, floats (modelled as rationals),
text strings, canonical object identifiers and lists. -/
inductive PyVal where
  | none : PyVal
  | bool (b : Bool) : PyVal
  | int (n : Int) : PyVal
  | float (q : ℚ) : PyVal
  | str (s : String) : PyVal
  | objectId (hex : String) : PyVal
  | list (xs : List PyVal) : PyVal
  deriving Repr

/-- Structural equality of Python values (the `==` operator on the shapes
modelled here). -/
def PyVal.beq : PyVal → PyVal → Bool
  | .none, .none => true
  | .bool a, .bool b => a == b
  | .int a, .int b => a == b
  | .float a, .float b => a == b
  | .str a, .str b => a == b
  | .objectId a, .objectId b => a == b
  | .list xs, .list ys => beqList xs ys
  | _, _ => false
where
  /-- Elementwise equality of Python lists. -/
  beqList : List PyVal → List PyVal → Bool
  | [], [] => true
  | x :: xs, y :: ys => PyVal.beq x y && beqList xs ys
  | _, _ => false

instance : BEq PyVal := ⟨PyVal.beq⟩

/-- `value is None` (also how `None != value` comparisons behave on the
shapes modelled here). -/
def PyVal.isNone : PyVal → Bool
  | .none => true
  | _ => false

/-- Python truthiness: `None`, `False`, zero, the empty string and the
empty list are falsy; everything else (including any object identifier)
is truthy. -/
def PyVal.truthy : PyVal → Bool
  | .none => false
  | .bool b => b
  | .int n => n != 0
  | .float q => q != 0
  | .str s => s != ""
  | .objectId _ => true
  | .list xs => !xs.isEmpty

/-- `isinstance(value, bool)`: only booleans. -/
def PyVal.isBool : PyVal → Bool
  | .bool _ => true
  | _ => false

/-- `isinstance(value, int)` in the source type system: booleans are a
numeric subtype of integers, so both integers and booleans qualify. -/
def PyVal.isInstInt : PyVal → Bool
  | .int _ => true
  | .bool _ => true
  | _ => false

/-- `isinstance(value, float)`: only floats (a boolean is not a float). -/
def PyVal.isInstFloat : PyVal → Bool
  | .float _ => true
  | _ => false

/-- `isinstance(value, ObjectId)`. -/
def PyVal.isObjectId : PyVal → Bool
  | .objectId _ => true
  | _ => false

/-- Numeric magnitude of a value, used for the order comparisons the
numeric fields perform (`value < self.min_value` and the like). A boolean
compares as 0 or 1, exactly as in Python. Non-numeric values never reach a
comparison in any claim; they are given magnitude 0 here. -/
def PyVal.numVal : PyVal → ℚ
  | .bool b => if b then 1 else 0
  | .int n => (n : ℚ)
  | .float q => q
  | _ => 0

/-- Rendering `"%s" % f` for a float `f`: an integral float renders with a
trailing `.0` (for example `0.0`, `10.0`). Every float the claims render
is integral; non-integral rationals fall back to the raw rational print,
which no claim exercises. -/
def floatRepr (q : ℚ) : String :=
  if q.den = 1 then toString q.num ++ ".0" else toString q

/-- Configuration shared by every field, as set up by the base field
constructor: the `required` flag and the optional `choices` list. The
`name`, `default` and `persist` attributes play no part in the validation
messages the claims are about and are omitted. -/
structure BaseFieldCfg where
  required : Bool
  choices : Option (List PyVal)

/-- Modelled from the spec: `BaseField.validate` lives in
`tavi/base/fields.py`, which is not under `src/`. Per the spec (§4.1) it
appends `"is required"` if `required` and the value is None/absent, and
`"value must be in list"` if `choices` is set, the value is not None, and
the value is outside `choices`. -/
def BaseField.validate (f : BaseFieldCfg) (value : PyVal) : List String :=
  (if f.required && value.isNone then ["is required"] else []) ++
  (match f.choices with
   | some cs => if !value.isNone && !cs.contains value then
      ["value must be in list"] else []
   | Option.none => [])

/-- `BooleanField.validate`: after the base checks, a truthy value that is
not strictly a boolean adds `"must be a valid boolean"`. -/
def BooleanField.validate (f : BaseFieldCfg) (value : PyVal) : List String :=
  BaseField.validate f value ++
  (if value.truthy && !value.isBool then ["must be a valid boolean"] else [])

/-- Configuration of a `FloatField`: base configuration plus optional
bounds, already coerced to float. -/
structure FloatFieldCfg where
  base : BaseFieldCfg
  min_value : Option ℚ
  max_value : Option ℚ

/-- `FloatField.__init__`: the optional bounds are coerced to float
(`float(min_value)`) at construction time. -/
def FloatField.init (base : BaseFieldCfg) (min_value max_value : Option PyVal) :
    FloatFieldCfg :=
  { base := base
    min_value := min_value.map PyVal.numVal
    max_value := max_value.map PyVal.numVal }

/-- `FloatField.validate`: base checks; then, when the value is not None,
an integer-kind value is widened to float, a non-float adds
`"must be a float"`, and the bound checks compare against the coerced
bounds, rendering them with float formatting. -/
def FloatField.validate (f : FloatFieldCfg) (value : PyVal) : List String :=
  BaseField.validate f.base value ++
  (if value.isNone then [] else
    let v := if value.isInstInt then PyVal.float value.numVal else value
    (if !v.isInstFloat then ["must be a float"] else []) ++
    (match f.min_value with
     | some m => if v.numVal < m then
        ["is too small (minimum is " ++ floatRepr m ++ ")"] else []
     | Option.none => []) ++
    (match f.max_value with
     | some m => if m < v.numVal then
        ["is too big (maximum is " ++ floatRepr m ++ ")"] else []
     | Option.none => []))

/-- Configuration of an `IntegerField`: base configuration plus optional
integer bounds (coerced with `int(...)` at construction). -/
structure IntegerFieldCfg where
  base : BaseFieldCfg
  min_value : Option Int
  max_value : Option Int

/-- `IntegerField.validate`: base checks; then, when the value is not
None, a value that is not an integer kind adds `"must be a integer"`, and
the bound checks compare the value numerically against the bounds. -/
def IntegerField.validate (f : IntegerFieldCfg) (value : PyVal) : List String :=
  BaseField.validate f.base value ++
  (if value.isNone then [] else
    (if !value.isInstInt then ["must be a integer"] else []) ++
    (match f.min_value with
     | some m => if value.numVal < (m : ℚ) then
        ["is too small (minimum is " ++ toString m ++ ")"] else []
     | Option.none => []) ++
    (match f.max_value with
     | some m => if (m : ℚ) < value.numVal then
        ["is too big (maximum is " ++ toString m ++ ")"] else []
     | Option.none => []))

/-- Lower-casing of a text string (hexadecimal identifier normalisation). -/
def strLower (s : String) : String :=
  String.mk (s.data.map Char.toLower)

/-- A 24-character string of hexadecimal digits: the canonical textual
form of a document identifier. -/
def validObjectIdHex (s : String) : Bool :=
  s.length == 24 && s.toList.all (fun c => c.isDigit ||
    ('a' ≤ c && c ≤ 'f') || ('A' ≤ c && c ≤ 'F'))

/-- Modelled from the spec: the external `bson.ObjectId` constructor is
not part of this repository. Per the spec (§6), the canonical identifier
format is a 24-character hexadecimal string for a 12-byte identifier;
parsing succeeds on a value already of the canonical identifier type and
on a 24-character hexadecimal string (normalised to lower case), and any
other input is a parse failure. -/
def parseObjectId : PyVal → Option PyVal
  | .objectId h => some (.objectId h)
  | .str s => if validObjectIdHex s then some (.objectId (strLower s)) else Option.none
  | _ => Option.none

/-- `ObjectIdField.__set__`: a `None` raw value is stored as `None`;
otherwise the raw value is parsed, a successful parse stores the canonical
identifier, and a failed parse stores the raw value unchanged. The base
class setter stores the coerced value verbatim (spec §4.1), so the stored
value is the result of this function. -/
def ObjectIdField.set (raw_value : PyVal) : PyVal :=
  if raw_value.isNone then .none
  else match parseObjectId raw_value with
    | some v => v
    | Option.none => raw_value

/-- `ObjectIdField.validate`: base checks; then a value that is not None
and not of the canonical identifier type adds
`"must be a valid Object Id"`. -/
def ObjectIdField.validate (f : BaseFieldCfg) (value : PyVal) : List String :=
  BaseField.validate f value ++
  (if !value.isNone && !value.isObjectId then ["must be a valid Object Id"] else [])

/-- Python `str(value)` on the shapes modelled here, backing
`StringField._ensure_unicode_string` (which stringifies non-string input
and decodes to unicode). Lists never reach it in any claim and render as a
placeholder. -/
def PyVal.pyStr : PyVal → String
  | .none => "None"
  | .bool b => if b then "True" else "False"
  | .int n => toString n
  | .float q => floatRepr q
  | .str s => s
  | .objectId h => h
  | .list _ => "[...]"

/-- Python `str.strip()`: drops leading and trailing whitespace. -/
def pyStrip (s : String) : String :=
  String.mk (((s.data.dropWhile Char.isWhitespace).reverse.dropWhile
    Char.isWhitespace).reverse)

/-- `StringField.__set__`: a truthy raw value is stringified to unicode
and stripped of leading and trailing whitespace; a falsy raw value
(including the empty string) is stored as `None`. The base class setter
stores the coerced value verbatim (spec §4.1). -/
def StringField.set (unstripped_value : PyVal) : PyVal :=
  if unstripped_value.truthy then .str (pyStrip unstripped_value.pyStr) else .none

/-- Configuration of a `StringField`: base configuration plus the optional
exact length, minimum and maximum lengths, and the compiled pattern
(modelled as a match-from-start predicate on strings). -/
structure StringFieldCfg where
  base : BaseFieldCfg
  length : Option Nat
  min_length : Option Nat
  max_length : Option Nat
  regex : Option (String → Bool)

/-- Python truthiness of an optional integer option (`if self.length`):
truthy when present and nonzero. -/
def optNatTruthy : Option Nat → Bool
  | some n => n != 0
  | Option.none => false

/-- Python 2 ordering of `val_length < n` where `val_length` is either an
integer length or `None`: in Python 2, `None` compares less than every
integer. -/
def pyLenLt : Option Nat → Nat → Bool
  | some l, n => l < n
  | Option.none, _ => true

/-- Python 2 ordering of `val_length > n`: `None` is greater than no
integer. -/
def pyLenGt : Option Nat → Nat → Bool
  | some l, n => n < l
  | Option.none, _ => false

/-- Python 2 equality `self.length != val_length` between an integer and
an integer-or-`None`. -/
def pyLenNe (n : Nat) : Option Nat → Bool
  | some l => n != l
  | Option.none => true

/-- `len(value)` on the sequence shapes; only called on truthy values. -/
def PyVal.pyLen : PyVal → Nat
  | .str s => s.length
  | .list xs => xs.length
  | _ => 0

/-- `val_length = len(value) if value else None`: the length used by the
string and array length checks, `None` for a falsy value. -/
def pyValLength (value : PyVal) : Option Nat :=
  if value.truthy then some value.pyLen else Option.none

/-- `value == ''`. -/
def PyVal.isEmptyStr : PyVal → Bool
  | .str s => s == ""
  | _ => false

/-- `StringField.validate`: base checks; `val_length` is the length of a
truthy value and `None` otherwise; a required field with a literally empty
stored string adds `"is required"`; the exact/minimum/maximum length
checks fire under Python 2 comparison semantics (where `None` is less
than every integer); a pattern only applies to a truthy value. -/
def StringField.validate (f : StringFieldCfg) (value : PyVal) : List String :=
  BaseField.validate f.base value ++
  (if f.base.required && value.isEmptyStr then ["is required"] else []) ++
  (match f.length with
   | some n => if n != 0 && pyLenNe n (pyValLength value) then
      ["is the wrong length (should be " ++ toString n ++ " characters)"] else []
   | Option.none => []) ++
  (match f.min_length with
   | some n => if n != 0 && pyLenLt (pyValLength value) n then
      ["is too short (minimum is " ++ toString n ++ " characters)"] else []
   | Option.none => []) ++
  (match f.max_length with
   | some n => if n != 0 && pyLenGt (pyValLength value) n then
      ["is too long (maximum is " ++ toString n ++ " characters)"] else []
   | Option.none => []) ++
  (match f.regex with
   | some r => if value.truthy && !r value.pyStr then ["is in the wrong format"] else []
   | Option.none => [])

/-- `isinstance(value, collections.MutableSequence)`: of the shapes
modelled here only a list qualifies (strings are immutable sequences). -/
def PyVal.isMutableSequence : PyVal → Bool
  | .list _ => true
  | _ => false

/-- Configuration of an `ArrayField` after construction: base
configuration, the optional length constraints, and the optional item
validator (modelled as a function from an item to the messages it appends
for this field). -/
structure ArrayFieldCfg where
  base : BaseFieldCfg
  length : Option Nat
  min_length : Option Nat
  max_length : Option Nat
  validate_item : Option (PyVal → List String)

/-- The `validate_item` argument handed to the `ArrayField` constructor:
absent, a callable, or a non-callable value. -/
inductive ValidateItemArg where
  | absent : ValidateItemArg
  | callable (f : PyVal → List String) : ValidateItemArg
  | notCallable (v : PyVal) : ValidateItemArg

/-- `ArrayField.__init__`: stores the length options; a `validate_item`
argument that is neither None nor callable raises
`ValueError("validate_item must be callable or None")`, modelled as an
`Except.error`; otherwise construction succeeds. -/
def ArrayField.init (base : BaseFieldCfg)
    (length min_length max_length : Option Nat) (validate_item : ValidateItemArg) :
    Except String ArrayFieldCfg :=
  match validate_item with
  | .notCallable _ => .error "validate_item must be callable or None"
  | .absent => .ok ⟨base, length, min_length, max_length, Option.none⟩
  | .callable f => .ok ⟨base, length, min_length, max_length, some f⟩

/-- Items of a value, for the item-validator loop (`for item in value`);
only reached when the value is present. -/
def PyVal.items : PyVal → List PyVal
  | .list xs => xs
  | _ => []

/-- `ArrayField.validate`: base checks; a present non-list value adds
`"is not a list."`; a required field with a falsy value adds
`"is required"` (an empty sequence is falsy); the exact/minimum/maximum
item-count checks mirror the string field with `"items"` in place of
`"characters"` (again under Python 2 comparisons where `None` is less
than every integer); finally the item validator, when set and the value
is present, runs once per item. -/
def ArrayField.validate (f : ArrayFieldCfg) (value : PyVal) : List String :=
  BaseField.validate f.base value ++
  (if !value.isNone && !value.isMutableSequence then ["is not a list."] else []) ++
  (if f.base.required && !value.truthy then ["is required"] else []) ++
  (match f.length with
   | some n => if n != 0 && pyLenNe n (pyValLength value) then
      ["is the wrong length (should be " ++ toString n ++ " items)"] else []
   | Option.none => []) ++
  (match f.min_length with
   | some n => if n != 0 && pyLenLt (pyValLength value) n then
      ["is too short (minimum is " ++ toString n ++ " items)"] else []
   | Option.none => []) ++
  (match f.max_length with
   | some n => if n != 0 && pyLenGt (pyValLength value) n then
      ["is too long (maximum is " ++ toString n ++ " items)"] else []
   | Option.none => []) ++
  (match f.validate_item with
   | some vi => if !value.isNone then (value.items.map vi).flatten else []
   | Option.none => [])

/-- Modelled from the spec: an embedded document instance
(`tavi.documents.EmbeddedDocument` is not under `src/`). Per the spec
(§6), it exposes an enumerable list of field names and per-field get/set
access; `objId` tags the allocation identity of the instance, so that
"no new instance is allocated" is observable in the model. Field values
live in an association list keyed by field name. -/
structure EDoc where
  objId : Nat
  fields : List String
  data : List (String × PyVal)

/-- Lookup in an association list of field values. -/
def alookup : List (String × PyVal) → String → Option PyVal
  | [], _ => Option.none
  | (k, v) :: t, k2 => if k = k2 then some v else alookup t k2

/-- Update (or insert) a key in an association list of field values. -/
def aupdate : List (String × PyVal) → String → PyVal → List (String × PyVal)
  | [], k, v => [(k, v)]
  | (k1, v1) :: t, k, v =>
    if k1 = k then (k, v) :: t else (k1, v1) :: aupdate t k v

/-- `getattr(doc, field, None)`: the stored value of a field, `None` when
unset. -/
def EDoc.getattr (d : EDoc) (f : String) : PyVal :=
  (alookup d.data f).getD .none

/-- `setattr(doc, field, v)`: stores a field value on the instance. The
scalar fields of the embedded document store the assigned value verbatim
through the base setter (spec §4.1); the allocation identity is
untouched. -/
def EDoc.setattr (d : EDoc) (f : String) (v : PyVal) : EDoc :=
  { d with data := aupdate d.data f v }

/-- The descriptor-level state of an `EmbeddedField`: the declared
embedded document class (its field list) and the single owned value,
`none` when the owned reference has been cleared by a falsy assignment. -/
structure EmbeddedFieldState where
  doc_class_fields : List String
  value : Option EDoc

/-- `self.doc_class()`: a fresh instance of the declared class, with a
fresh allocation identity and no field values set. -/
def EmbeddedField.freshDoc (doc_class_fields : List String) (freshId : Nat) : EDoc :=
  { objId := freshId, fields := doc_class_fields, data := [] }

/-- `EmbeddedField.__init__`: constructs one instance of the declared
class immediately; the owned value starts as the default when one is
given, and as that fresh instance otherwise. -/
def EmbeddedField.init (doc_class_fields : List String) (default : Option EDoc)
    (freshId : Nat) : EmbeddedFieldState :=
  { doc_class_fields := doc_class_fields
    value := match default with
      | some d => some d
      | Option.none => some (EmbeddedField.freshDoc doc_class_fields freshId) }

/-- `EmbeddedField.__get__(self, instance, owner)`: returns the owned
value from the descriptor itself; the `instance` argument is ignored by
the source. -/
def EmbeddedField.get (st : EmbeddedFieldState) (_instanceId : Nat) : Option EDoc :=
  st.value

/-- `EmbeddedField.__set__(self, instance, value)`: a falsy value clears
the owned reference; otherwise, if no instance is currently owned a fresh
one is created (`freshId` is its allocation identity), and every field
declared on the source document is read and written into the owned
instance field-by-field. The `instance` argument is ignored by the
source: the state lives on the descriptor. -/
def EmbeddedField.set (st : EmbeddedFieldState) (_instanceId : Nat)
    (value : Option EDoc) (freshId : Nat) : EmbeddedFieldState :=
  match value with
  | Option.none => { st with value := Option.none }
  | some src =>
    let owned := match st.value with
      | some d => d
      | Option.none => EmbeddedField.freshDoc st.doc_class_fields freshId
    let owned2 := src.fields.foldl (fun d f => d.setattr f (src.getattr f)) owned
    { st with value := some owned2 }

/-- The `FloatField` of claim C2: `FloatField(min_value=0, max_value=10)`
with the bounds given as Python integers, coerced to float at
construction. -/
def floatFieldZeroTen : FloatFieldCfg :=
  FloatField.init ⟨false, Option.none⟩ (some (.int 0)) (some (.int 10))

/-!  Helper lemmas shared by the claim theorems. -/

/-- The base validation only ever emits its two fixed messages. -/
theorem BaseField.validate_mem (f : BaseFieldCfg) (v : PyVal) (m : String)
    (hm : m ∈ BaseField.validate f v) :
    m = "is required" ∨ m = "value must be in list" := by
  unfold BaseField.validate at hm
  rcases List.mem_append.1 hm with h | h
  · left
    split at h <;> simp_all
  · right
    rcases hc : f.choices with _ | cs <;> rw [hc] at h
    · simp at h
    · split at h <;> simp_all

/-- Two strings differ when one is an interpolation around a fixed prefix
that is already longer than the whole of the other. -/
theorem append_longer_ne (p x q t : String) (h : t.length < p.length) :
    p ++ x ++ q ≠ t := by
  intro e
  have h2 := congrArg String.length e
  rw [String.length_append, String.length_append] at h2
  omega

/-- Membership in a conditional singleton pins down the element. -/
theorem mem_ite_singleton {c : Prop} [Decidable c] {m s : String}
    (h : m ∈ if c then [s] else []) : m = s := by
  split at h <;> simp_all

/-- Claim C2: with `FloatField(min_value=0, max_value=10)` (integer
bounds, coerced to float at construction), validating `-1` appends
exactly `"is too small (minimum is 0.0)"`, validating `11` appends
exactly `"is too big (maximum is 10.0)"`, and validating `5` appends
nothing; the bounds render as `0.0` and `10.0` because of the
construction-time coercion. -/
theorem claim_C2_floatfield_bounds :
    FloatField.validate floatFieldZeroTen (.int (-1)) =
      ["is too small (minimum is 0.0)"] ∧
    FloatField.validate floatFieldZeroTen (.int 11) =
      ["is too big (maximum is 10.0)"] ∧
    FloatField.validate floatFieldZeroTen (.int 5) = [] := by
  refine ⟨by decide, by decide, by decide⟩

/-- Claim C5: constructing an `ArrayField` with a `validate_item`
argument that is neither None nor callable raises a `ValueError`
immediately (modelled as `Except.error`, never an accumulated validation
message), while construction with an absent or callable `validate_item`
succeeds. -/
theorem claim_C5_arrayfield_init (base : BaseFieldCfg)
    (l ml xl : Option Nat) (v : PyVal) (g : PyVal → List String) :
    ArrayField.init base l ml xl (.notCallable v) =
      .error "validate_item must be callable or None" ∧
    (∃ cfg, ArrayField.init base l ml xl .absent = .ok cfg) ∧
    (∃ cfg, ArrayField.init base l ml xl (.callable g) = .ok cfg) :=
  ⟨rfl, ⟨_, rfl⟩, ⟨_, rfl⟩⟩

/-- Claim C6: for every `ArrayField` with `required` set, validating any
falsy value — the empty sequence included — appends `"is required"`: an
empty sequence does not satisfy the required constraint. -/
theorem claim_C6_arrayfield_required (f : ArrayFieldCfg) (v : PyVal)
    (hreq : f.base.required = true) (hv : v.truthy = false) :
    "is required" ∈ ArrayField.validate f v := by
  unfold ArrayField.validate
  refine List.mem_append.2 (Or.inl ?_)
  refine List.mem_append.2 (Or.inl ?_)
  refine List.mem_append.2 (Or.inl ?_)
  refine List.mem_append.2 (Or.inl ?_)
  refine List.mem_append.2 (Or.inr ?_)
  rw [hreq, hv]
  simp

/-- Witness for claim C6: a required `ArrayField` with no other options,
validating the empty list. -/
theorem claim_C6_arrayfield_required_witness :
    "is required" ∈ ArrayField.validate
      ⟨⟨true, Option.none⟩, Option.none, Option.none, Option.none, Option.none⟩
      (.list []) :=
  claim_C6_arrayfield_required _ _ rfl rfl

/-- Claim C7: `BooleanField.validate` appends
`"must be a valid boolean"` for every truthy value that is not strictly
a boolean, and never appends it for a falsy value (such as `0`, the
empty string, or `None`). -/
theorem claim_C7_booleanfield (f : BaseFieldCfg) (v : PyVal) :
    (v.truthy = true → v.isBool = false →
      "must be a valid boolean" ∈ BooleanField.validate f v) ∧
    (v.truthy = false →
      "must be a valid boolean" ∉ BooleanField.validate f v) := by
  constructor
  · intro ht hb
    unfold BooleanField.validate
    refine List.mem_append.2 (Or.inr ?_)
    rw [ht, hb]
    simp
  · intro ht hmem
    unfold BooleanField.validate at hmem
    rcases List.mem_append.1 hmem with h | h
    · rcases BaseField.validate_mem f v _ h with h1 | h1 <;>
        exact absurd h1 (by decide)
    · rw [ht] at h
      simp at h

/-- Witness for claim C7: the truthy non-boolean `3` draws the message,
the falsy non-boolean `0` does not. -/
theorem claim_C7_booleanfield_witness :
    "must be a valid boolean" ∈
      BooleanField.validate ⟨false, Option.none⟩ (.int 3) ∧
    "must be a valid boolean" ∉
      BooleanField.validate ⟨false, Option.none⟩ (.int 0) :=
  ⟨(claim_C7_booleanfield _ _).1 rfl rfl, (claim_C7_booleanfield _ _).2 rfl⟩

/-- Claim C8: boolean values silently satisfy the numeric type checks —
validating `True` or `False` never appends `"must be a integer"` on an
`IntegerField` nor `"must be a float"` on a `FloatField`, because a
boolean is an integer kind in the source type system (and the float
variant widens integer kinds before its type check). -/
theorem claim_C8_bool_numeric (icfg : IntegerFieldCfg) (fcfg : FloatFieldCfg)
    (b : Bool) :
    "must be a integer" ∉ IntegerField.validate icfg (.bool b) ∧
    "must be a float" ∉ FloatField.validate fcfg (.bool b) := by
  constructor
  · intro hmem
    unfold IntegerField.validate at hmem
    rcases List.mem_append.1 hmem with h | h
    · rcases BaseField.validate_mem _ _ _ h with h1 | h1 <;>
        exact absurd h1 (by decide)
    · simp only [PyVal.isNone, PyVal.isInstInt, Bool.not_true, Bool.false_eq_true,
        if_false, List.mem_append, List.not_mem_nil, false_or, or_false] at h
      rcases h with h3 | h3
      · rcases hmin : icfg.min_value with _ | m <;> rw [hmin] at h3
        · simp at h3
        · exact absurd (mem_ite_singleton h3).symm
            (append_longer_ne _ _ _ _ (by decide))
      · rcases hmax : icfg.max_value with _ | m <;> rw [hmax] at h3
        · simp at h3
        · exact absurd (mem_ite_singleton h3).symm
            (append_longer_ne _ _ _ _ (by decide))
  · intro hmem
    unfold FloatField.validate at hmem
    rcases List.mem_append.1 hmem with h | h
    · rcases BaseField.validate_mem _ _ _ h with h1 | h1 <;>
        exact absurd h1 (by decide)
    · simp only [PyVal.isNone, PyVal.isInstInt, PyVal.isInstFloat, PyVal.numVal,
        Bool.not_true, Bool.false_eq_true, if_false, if_true,
        List.mem_append, List.not_mem_nil, false_or, or_false] at h
      rcases h with h3 | h3
      · rcases hmin : fcfg.min_value with _ | m <;> rw [hmin] at h3
        · simp at h3
        · exact absurd (mem_ite_singleton h3).symm
            (append_longer_ne _ _ _ _ (by decide))
      · rcases hmax : fcfg.max_value with _ | m <;> rw [hmax] at h3
        · simp at h3
        · exact absurd (mem_ite_singleton h3).symm
            (append_longer_ne _ _ _ _ (by decide))

/-- Witness for claim C8: `True` on a plain `IntegerField` and a plain
`FloatField`. -/
theorem claim_C8_bool_numeric_witness :
    "must be a integer" ∉ IntegerField.validate
      ⟨⟨false, Option.none⟩, Option.none, Option.none⟩ (.bool true) ∧
    "must be a float" ∉ FloatField.validate
      ⟨⟨false, Option.none⟩, Option.none, Option.none⟩ (.bool true) :=
  ⟨(claim_C8_bool_numeric _ ⟨⟨false, Option.none⟩, Option.none, Option.none⟩ true).1,
   (claim_C8_bool_numeric ⟨⟨false, Option.none⟩, Option.none, Option.none⟩ _ true).2⟩

/-- Claim C10: a `StringField` with a positive `min_length` appends
`"is too short (minimum is N characters)"` when validating a stored
`None`, and with a positive exact `length` appends
`"is the wrong length (should be L characters)"` — under the Python 2
comparison semantics of the source, `None` is less than every integer
and unequal to every integer, so an absent value is not exempt from the
length checks; it is exempt only from the pattern check. -/
theorem claim_C10_stringfield_none (f : StringFieldCfg) (N L : Nat)
    (hmin : f.min_length = some N) (hN : 0 < N)
    (hlen : f.length = some L) (hL : 0 < L) :
    "is too short (minimum is " ++ toString N ++ " characters)" ∈
      StringField.validate f .none ∧
    "is the wrong length (should be " ++ toString L ++ " characters)" ∈
      StringField.validate f .none ∧
    "is in the wrong format" ∉ StringField.validate f .none := by
  refine ⟨?_, ?_, ?_⟩
  · unfold StringField.validate
    refine List.mem_append.2 (Or.inl ?_)
    refine List.mem_append.2 (Or.inl ?_)
    refine List.mem_append.2 (Or.inr ?_)
    rw [hmin]
    have hne : (N != 0) = true := by simp; omega
    simp [pyLenLt, pyValLength, PyVal.truthy, hne]
  · unfold StringField.validate
    refine List.mem_append.2 (Or.inl ?_)
    refine List.mem_append.2 (Or.inl ?_)
    refine List.mem_append.2 (Or.inl ?_)
    refine List.mem_append.2 (Or.inr ?_)
    rw [hlen]
    have hne : (L != 0) = true := by simp; omega
    simp [pyLenNe, pyValLength, PyVal.truthy, hne]
  · intro hmem
    unfold StringField.validate at hmem
    rcases List.mem_append.1 hmem with h | h
    · rcases List.mem_append.1 h with h | h
      · rcases List.mem_append.1 h with h | h
        · rcases List.mem_append.1 h with h | h
          · rcases List.mem_append.1 h with h | h
            · rcases BaseField.validate_mem _ _ _ h with h1 | h1 <;>
                exact absurd h1 (by decide)
            · simp [PyVal.isEmptyStr] at h
          · rcases hl2 : f.length with _ | n <;> rw [hl2] at h
            · simp at h
            · exact absurd (mem_ite_singleton h).symm
                (append_longer_ne _ _ _ _ (by decide))
        · rcases hl2 : f.min_length with _ | n <;> rw [hl2] at h
          · simp at h
          · exact absurd (mem_ite_singleton h).symm
              (append_longer_ne _ _ _ _ (by decide))
      · rcases hl2 : f.max_length with _ | n <;> rw [hl2] at h
        · simp at h
        · exact absurd (mem_ite_singleton h).symm
            (append_longer_ne _ _ _ _ (by decide))
    · rcases hr : f.regex with _ | r <;> rw [hr] at h
      · simp at h
      · simp [PyVal.truthy] at h

/-- Witness for claim C10: `StringField(length=5, min_length=2)`
validating `None`. -/
theorem claim_C10_stringfield_none_witness :
    "is too short (minimum is " ++ toString 2 ++ " characters)" ∈
      StringField.validate
        ⟨⟨false, Option.none⟩, some 5, some 2, Option.none, Option.none⟩ .none ∧
    "is the wrong length (should be " ++ toString 5 ++ " characters)" ∈
      StringField.validate
        ⟨⟨false, Option.none⟩, some 5, some 2, Option.none, Option.none⟩ .none ∧
    "is in the wrong format" ∉ StringField.validate
        ⟨⟨false, Option.none⟩, some 5, some 2, Option.none, Option.none⟩ .none :=
  claim_C10_stringfield_none _ 2 5 rfl (by decide) rfl (by decide)

/-- Claim C4: `StringField.__set__` stores every truthy raw value as its
unicode text form stripped of leading and trailing whitespace, and every
falsy raw value (the empty string included) as `None`. -/
theorem claim_C4_stringfield_set (raw : PyVal) :
    (raw.truthy = true → StringField.set raw = .str (pyStrip raw.pyStr)) ∧
    (raw.truthy = false → StringField.set raw = .none) := by
  constructor <;> intro h <;> unfold StringField.set <;> rw [h] <;> simp

/-- Witness for claim C4: a padded string is stripped, the empty string
and `None` are both stored as `None`. -/
theorem claim_C4_stringfield_set_witness :
    StringField.set (.str "  hi  ") = .str "hi" ∧
    StringField.set (.str "") = .none ∧
    StringField.set .none = .none :=
  ⟨((claim_C4_stringfield_set (.str "  hi  ")).1 rfl).trans
      (congrArg PyVal.str (by decide)),
   (claim_C4_stringfield_set (.str "")).2 rfl,
   (claim_C4_stringfield_set .none).2 rfl⟩

/-- Claim C1: `ObjectIdField.__set__` is total over raw values — a
successful parse stores the canonical identifier, a parse failure stores
the raw value unchanged (never raising), and `None` stays `None`; a
subsequent `validate` appends `"must be a valid Object Id"` exactly when
the stored value is neither `None` nor of the canonical identifier
type. -/
theorem claim_C1_objectidfield (f : BaseFieldCfg) (raw v : PyVal) :
    (∀ w, parseObjectId raw = some w → ObjectIdField.set raw = w) ∧
    (raw.isNone = false → parseObjectId raw = Option.none →
      ObjectIdField.set raw = raw) ∧
    ObjectIdField.set .none = .none ∧
    ("must be a valid Object Id" ∈ ObjectIdField.validate f v ↔
      (v.isNone = false ∧ v.isObjectId = false)) := by
  refine ⟨?_, ?_, rfl, ?_, ?_⟩
  · intro w hw
    have hn : raw.isNone = false := by
      rcases raw <;> simp [parseObjectId, PyVal.isNone] at hw ⊢
    unfold ObjectIdField.set
    rw [hn, hw]
    simp
  · intro hn hw
    unfold ObjectIdField.set
    rw [hn, hw]
    simp
  · intro hmem
    unfold ObjectIdField.validate at hmem
    rcases List.mem_append.1 hmem with h | h
    · rcases BaseField.validate_mem _ _ _ h with h1 | h1 <;>
        exact absurd h1 (by decide)
    · split at h
      · rename_i hc
        simpa [Bool.and_eq_true, Bool.not_eq_true'] using hc
      · simp at h
  · rintro ⟨h1, h2⟩
    unfold ObjectIdField.validate
    refine List.mem_append.2 (Or.inr ?_)
    rw [h1, h2]
    simp

/-- Witness for claim C1: the non-identifier string `"zz"` fails to parse,
is stored unchanged and is flagged by `validate`; a valid 24-character
hexadecimal string parses to the canonical identifier; an identifier
value is stored as itself. -/
theorem claim_C1_objectidfield_witness :
    ObjectIdField.set (.str "zz") = .str "zz" ∧
    ObjectIdField.set (.str "4F4c4c60792D1f1a92000000") =
      .objectId "4f4c4c60792d1f1a92000000" ∧
    ObjectIdField.set (.objectId "4f4c4c60792d1f1a92000000") =
      .objectId "4f4c4c60792d1f1a92000000" ∧
    "must be a valid Object Id" ∈
      ObjectIdField.validate ⟨false, Option.none⟩ (.str "zz") :=
  ⟨(claim_C1_objectidfield ⟨false, Option.none⟩ (.str "zz") .none).2.1 rfl rfl,
   (claim_C1_objectidfield ⟨false, Option.none⟩
      (.str "4F4c4c60792D1f1a92000000") .none).1 _ rfl,
   (claim_C1_objectidfield ⟨false, Option.none⟩
      (.objectId "4f4c4c60792d1f1a92000000") .none).1 _ rfl,
   (claim_C1_objectidfield ⟨false, Option.none⟩ .none (.str "zz")).2.2.2.mpr
      ⟨rfl, rfl⟩⟩

/-!  Association-list lemmas for the embedded-document model. -/

/-- Looking up the key just updated yields the new value. -/
theorem alookup_aupdate_self (l : List (String × PyVal)) (k : String) (v : PyVal) :
    alookup (aupdate l k v) k = some v := by
  induction l with
  | nil => simp [aupdate, alookup]
  | cons p t ih =>
    obtain ⟨k1, v1⟩ := p
    by_cases h : k1 = k <;> simp [aupdate, alookup, h, ih]

/-- Updating one key leaves the lookup of any other key unchanged. -/
theorem alookup_aupdate_ne (l : List (String × PyVal)) (k k2 : String)
    (v : PyVal) (h : k ≠ k2) : alookup (aupdate l k v) k2 = alookup l k2 := by
  induction l with
  | nil => simp [aupdate, alookup, h]
  | cons p t ih =>
    obtain ⟨k1, v1⟩ := p
    by_cases h1 : k1 = k
    · subst h1
      simp [aupdate, alookup, h]
    · simp [aupdate, alookup, h1, ih]

/-- Reading a field just written returns the written value. -/
theorem EDoc.getattr_setattr_self (d : EDoc) (k : String) (v : PyVal) :
    (d.setattr k v).getattr k = v := by
  simp [EDoc.getattr, EDoc.setattr, alookup_aupdate_self]

/-- Writing one field leaves every other field unchanged. -/
theorem EDoc.getattr_setattr_ne (d : EDoc) (k k2 : String) (v : PyVal)
    (h : k ≠ k2) : (d.setattr k v).getattr k2 = d.getattr k2 := by
  simp [EDoc.getattr, EDoc.setattr, alookup_aupdate_ne _ _ _ _ h]

/-- Claim C3: assigning an embedded document holding fields a=1, b=2 onto
an `EmbeddedField` whose owned instance currently holds a=0, b=0 leaves
the owned instance holding a=1, b=2 with its allocation identity
unchanged — the copy is field-by-field into the existing instance, not a
replacement of the reference. -/
theorem claim_C3_embeddedfield_copy (st : EmbeddedFieldState) (d src : EDoc)
    (i fid : Nat)
    (hown : st.value = some d)
    (_ha0 : d.getattr "a" = .int 0) (_hb0 : d.getattr "b" = .int 0)
    (hfields : src.fields = ["a", "b"])
    (ha : src.getattr "a" = .int 1) (hb : src.getattr "b" = .int 2) :
    ∃ d2, (EmbeddedField.set st i (some src) fid).value = some d2 ∧
      d2.objId = d.objId ∧
      d2.getattr "a" = .int 1 ∧ d2.getattr "b" = .int 2 := by
  unfold EmbeddedField.set
  simp only [hown, hfields, List.foldl]
  refine ⟨_, rfl, rfl, ?_, ?_⟩
  · rw [EDoc.getattr_setattr_ne _ _ _ _ (by decide), EDoc.getattr_setattr_self, ha]
  · rw [EDoc.getattr_setattr_self, hb]

/-- Witness for claim C3: owned instance with identity 7 holding a=0,
b=0; source document holding a=1, b=2. -/
theorem claim_C3_embeddedfield_copy_witness :
    ∃ d2, (EmbeddedField.set
      ⟨["a", "b"], some ⟨7, ["a", "b"], [("a", PyVal.int 0), ("b", PyVal.int 0)]⟩⟩
      0 (some ⟨8, ["a", "b"], [("a", PyVal.int 1), ("b", PyVal.int 2)]⟩) 9).value
        = some d2 ∧
      d2.objId =
        (⟨7, ["a", "b"], [("a", PyVal.int 0), ("b", PyVal.int 0)]⟩ : EDoc).objId ∧
      d2.getattr "a" = .int 1 ∧ d2.getattr "b" = .int 2 :=
  claim_C3_embeddedfield_copy _ _ _ 0 9 rfl rfl rfl rfl rfl rfl

/-- Claim C9: the nested-document state of an `EmbeddedField` lives at
the descriptor level, not per owning instance — `get` returns the same
owned value regardless of which instance it is read through, and an
assignment performed through one instance is observed by a subsequent
`get` through any other instance (here: after assigning a source
document with field x, both instances see the field-by-field update of
the previously owned instance). -/
theorem claim_C9_embeddedfield_shared (st : EmbeddedFieldState) (d src : EDoc)
    (i j fid : Nat) (v : Option EDoc)
    (hown : st.value = some d) (hfields : src.fields = ["x"]) :
    EmbeddedField.get st i = EmbeddedField.get st j ∧
    EmbeddedField.get (EmbeddedField.set st i v fid) j =
      EmbeddedField.get (EmbeddedField.set st i v fid) i ∧
    EmbeddedField.get (EmbeddedField.set st i (some src) fid) j =
      some (d.setattr "x" (src.getattr "x")) := by
  refine ⟨rfl, rfl, ?_⟩
  unfold EmbeddedField.get EmbeddedField.set
  simp only [hown, hfields, List.foldl]

/-- Witness for claim C9: two owning instances 0 and 1 share the
descriptor state; instance 0 assigns, instance 1 observes. -/
theorem claim_C9_embeddedfield_shared_witness :
    EmbeddedField.get ⟨["x"], some ⟨1, ["x"], []⟩⟩ 0 =
      EmbeddedField.get ⟨["x"], some ⟨1, ["x"], []⟩⟩ 1 ∧
    EmbeddedField.get
        (EmbeddedField.set ⟨["x"], some ⟨1, ["x"], []⟩⟩ 0 Option.none 3) 1 =
      EmbeddedField.get
        (EmbeddedField.set ⟨["x"], some ⟨1, ["x"], []⟩⟩ 0 Option.none 3) 0 ∧
    EmbeddedField.get (EmbeddedField.set ⟨["x"], some ⟨1, ["x"], []⟩⟩ 0
        (some ⟨2, ["x"], [("x", PyVal.int 5)]⟩) 3) 1 =
      some ((⟨1, ["x"], []⟩ : EDoc).setattr "x"
        ((⟨2, ["x"], [("x", PyVal.int 5)]⟩ : EDoc).getattr "x")) :=
  claim_C9_embeddedfield_shared _ _ _ 0 1 3 Option.none rfl rfl

/-- Witness for claim C5: a non-callable integer argument is rejected at
construction, an absent or callable argument is accepted. -/
theorem claim_C5_arrayfield_init_witness :
    ArrayField.init ⟨false, Option.none⟩ Option.none Option.none Option.none
      (.notCallable (.int 3)) = .error "validate_item must be callable or None" ∧
    (∃ cfg, ArrayField.init ⟨false, Option.none⟩ Option.none Option.none
      Option.none .absent = .ok cfg) ∧
    (∃ cfg, ArrayField.init ⟨false, Option.none⟩ Option.none Option.none
      Option.none (.callable (fun _ => [])) = .ok cfg) :=
  claim_C5_arrayfield_init _ _ _ _ _ _
